import Mathlib

/-!
Verification of the database-scenario validation engine
(`test_scenarios_validation.py`, later variant, plus the per-scenario
report pieces of the earlier variant).

The Python validator scans an artifact corpus for textual references to a
database name, buckets the discovered references into evidence categories,
evaluates per-scenario rules, and aggregates the results into a report
with a pass/fail exit signal.  The filesystem is modelled as explicit
input data: each scanned location is a list of files, a file being a path
together with `Option String` content (`none` models a file whose read
raises, matching the `except Exception` handlers in the source).
-/

namespace ScenarioValidation

/-- `charsStart needle hay` : does `hay` start with `needle`? -/
def charsStart : List Char → List Char → Bool
  | [], _ => true
  | _ :: _, [] => false
  | a :: as, b :: bs => a == b && charsStart as bs

/-- `charsHave needle hay` : does `needle` occur contiguously in `hay`? -/
def charsHave (needle : List Char) : List Char → Bool
  | [] => charsStart needle []
  | b :: bs => charsStart needle (b :: bs) || charsHave needle bs

/-- The Python substring test `needle in hay`. -/
def strIn (needle hay : String) : Bool :=
  charsHave needle.data hay.data

/-- `ScenarioType` enum of the source. -/
inductive ScenarioType
  | CONFIG_ONLY
  | MIXED
  | LOGIC_HEAVY
deriving DecidableEq

/-- `ScenarioType(...).value` of the source enum. -/
def ScenarioType.value : ScenarioType → String
  | .CONFIG_ONLY => "CONFIG_ONLY"
  | .MIXED => "MIXED"
  | .LOGIC_HEAVY => "LOGIC_HEAVY"

/-- `ViolationType` enum of the source (the severity of a check result). -/
inductive ViolationType
  | CRITICAL
  | WARNING
  | INFO
deriving DecidableEq

/-- The `ValidationResult` dataclass of the source. -/
structure ValidationResult where
  database : String
  scenario : ScenarioType
  check_name : String
  status : String
  violation_type : ViolationType
  message : String
  details : List String
  file_references : List String
deriving DecidableEq

/-- Constructor mirroring `_add_result` (which appends exactly this record). -/
def mkResult (database : String) (scenario : ScenarioType) (check_name status : String)
    (violation_type : ViolationType) (message : String)
    (details file_references : List String) : ValidationResult :=
  ⟨database, scenario, check_name, status, violation_type, message, details, file_references⟩

/-- A scanned artifact: path plus content; `none` content models a file whose
`read_text` raises an exception. -/
structure PyFile where
  path : String
  content : Option String
deriving DecidableEq

/-- The portion of the corpus the validator reads for one database: the
enumerated files of each scanned location, in enumeration (`rglob`/`glob`)
order.  `helmFiles` only matters by existence, so paths suffice there. -/
structure Corpus where
  configFiles : List PyFile
  serviceFiles : List PyFile
  businessFiles : List PyFile
  analyticsFiles : List PyFile
  terraformFiles : List PyFile
  helmFiles : List String
  monitorFiles : List PyFile
deriving DecidableEq

/-- The `app_code_files` table of `_validate_scenario_separation`:
`src/config/` ↦ configuration, `src/services/` ↦ service_layer,
`src/business/` ↦ business_logic, `src/analytics/` ↦ analytics. -/
def appCodeFiles (c : Corpus) : List (String × List PyFile) :=
  [("configuration", c.configFiles),
   ("service_layer", c.serviceFiles),
   ("business_logic", c.businessFiles),
   ("analytics", c.analyticsFiles)]

/-- Python dict insertion for `found_references`:
`if code_type not in found_references: found_references[code_type] = []`
followed by `found_references[code_type].append(str(py_file))`. -/
def addRef (refs : List (String × List String)) (codeType path : String) :
    List (String × List String) :=
  if refs.any (fun q => q.1 == codeType) then
    refs.map (fun q => if q.1 == codeType then (q.1, q.2 ++ [path]) else q)
  else
    refs ++ [(codeType, [path])]

/-- The inner scanning loop of `_validate_scenario_separation` over one
`(dir_path, code_type)` pair: each readable file whose content contains the
database name is recorded; a read failure is silently skipped
(`except Exception: pass`). -/
def scanCategory (db codeType : String) (files : List PyFile)
    (refs : List (String × List String)) : List (String × List String) :=
  files.foldl (fun acc f =>
    match f.content with
    | some text => if strIn db text then addRef acc codeType f.path else acc
    | none => acc) refs

/-- The full reference-collection loop of `_validate_scenario_separation`:
builds `found_references` by scanning the four app-code locations in order. -/
def scanAppCode (db : String) (c : Corpus) : List (String × List String) :=
  (appCodeFiles c).foldl (fun acc q => scanCategory db q.1 q.2 acc) []

/-- `found_references.keys()` (Python dict keys, in insertion order). -/
def refKeys (refs : List (String × List String)) : List String :=
  refs.map Prod.fst

/-- Python's `code_type in found_references`. -/
def hasKey (refs : List (String × List String)) (k : String) : Bool :=
  refs.any (fun q => q.1 == k)

/-- `found_references[k]`, defaulting to `[]` when the key is absent. -/
def lookupRefs (refs : List (String × List String)) (k : String) : List String :=
  ((refs.find? (fun q => q.1 == k)).map Prod.snd).getD []

/-- `sum(found_references.values(), [])`. -/
def allValues (refs : List (String × List String)) : List String :=
  (refs.map Prod.snd).flatten

/-- The paths of the readable files in `files` whose content contains `db`,
in enumeration order — the evidence the scanner can collect from `files`. -/
def matchesIn (db : String) (files : List PyFile) : List String :=
  files.filterMap (fun f =>
    match f.content with
    | some text => if strIn db text then some f.path else none
    | none => none)

/-- The `allowed_types` set of the MIXED branch. -/
def allowedTypesMixed : List String := ["configuration", "service_layer"]

/-- The `forbidden_types` set of the MIXED branch. -/
def forbiddenTypesMixed : List String := ["business_logic", "analytics"]

/-- The `required_types` set of the LOGIC_HEAVY branch. -/
def requiredTypesLogicHeavy : List String := ["business_logic", "analytics"]

/-- The `f"Missing: {missing}"` detail string. -/
def missingMsg (ts : List String) : String :=
  "Missing: " ++ toString ts

/-- The rule-evaluation tail of `_validate_scenario_separation`: given the
collected `found_references`, produce the single result the check appends. -/
def separationResult (db : String) (st : ScenarioType)
    (refs : List (String × List String)) : ValidationResult :=
  match st with
  | .CONFIG_ONLY =>
    if refs.isEmpty then
      mkResult db st "config_only_purity" "PASS" .INFO
        "No application code references (correct)" [] []
    else
      mkResult db st "config_only_purity" "FAIL" .CRITICAL
        "Config-only database has application code references"
        ["Found in: " ++ toString (refKeys refs)] (allValues refs)
  | .MIXED =>
    let violations := (refKeys refs).filter (fun t => forbiddenTypesMixed.contains t)
    if violations.isEmpty then
      if allowedTypesMixed.any (fun t => hasKey refs t) then
        mkResult db st "mixed_scenario_rules" "PASS" .INFO
          "Mixed scenario properly implemented"
          ["Found allowed: " ++ toString (refKeys refs)] []
      else
        mkResult db st "mixed_scenario_rules" "WARNING" .WARNING
          "Mixed scenario has no service layer"
          ["Should have configuration and service references"] []
    else
      mkResult db st "mixed_scenario_rules" "FAIL" .CRITICAL
        "Mixed scenario has forbidden business logic"
        ["Found forbidden: " ++ toString violations]
        ((violations.map (lookupRefs refs)).flatten)
  | .LOGIC_HEAVY =>
    let missing := requiredTypesLogicHeavy.filter (fun t => !hasKey refs t)
    if missing.isEmpty then
      mkResult db st "logic_heavy_complexity" "PASS" .INFO
        "Logic-heavy scenario properly implemented"
        ["Found: " ++ toString (refKeys refs)] []
    else
      mkResult db st "logic_heavy_complexity" "WARNING" .WARNING
        "Logic-heavy scenario missing complex logic"
        [missingMsg missing] []

/-- The Terraform search loop of `_validate_infrastructure_files`: `True` as
soon as a readable matching file is seen; read failures are skipped. -/
def terraformFound (db : String) (files : List PyFile) : Bool :=
  files.any (fun f =>
    match f.content with
    | some text => strIn db text
    | none => false)

/-- The `terraform_config` result of `_validate_infrastructure_files`. -/
def terraformResult (db : String) (st : ScenarioType) (files : List PyFile) :
    ValidationResult :=
  if terraformFound db files then
    mkResult db st "terraform_config" "PASS" .INFO "Terraform configuration found" [] []
  else
    mkResult db st "terraform_config" "FAIL" .CRITICAL "No Terraform configuration found" [] []

/-- The `helm_config` result of `_validate_infrastructure_files`:
existence of `helm_values_{database}.yaml`. -/
def helmResult (db : String) (st : ScenarioType) (helmFiles : List String) :
    ValidationResult :=
  if helmFiles.isEmpty then
    mkResult db st "helm_config" "WARNING" .WARNING "No Helm configuration found" [] []
  else
    mkResult db st "helm_config" "PASS" .INFO "Helm configuration found" [] []

/-- `_validate_infrastructure_files` appends these two results, in this order. -/
def infrastructureResults (db : String) (st : ScenarioType) (c : Corpus) :
    List ValidationResult :=
  [terraformResult db st c.terraformFiles, helmResult db st c.helmFiles]

/-- The `required_elements` list of `_validate_monitoring_setup`. -/
def requiredMonitorElements (st : ScenarioType) : List String :=
  [st.value, "threshold", "alert", "database_name"]

/-- Python's `str.lower()`, modelled character-wise (the scanned artifacts
are ASCII, where `Char.toLower` agrees with Python). -/
def strLower (s : String) : String :=
  ⟨s.data.map Char.toLower⟩

/-- `missing = [elem for elem in required_elements if elem.lower() not in content.lower()]`. -/
def missingMonitorElements (st : ScenarioType) (text : String) : List String :=
  (requiredMonitorElements st).filter (fun e => !strIn (strLower e) (strLower text))

/-- The `monitoring_config` result of `_validate_monitoring_setup`:
no matching monitor file is FAIL/CRITICAL; an unreadable first file is
WARNING; otherwise PASS or WARNING by completeness of the content. -/
def monitoringResult (db : String) (st : ScenarioType) (files : List PyFile) :
    ValidationResult :=
  match files with
  | [] =>
    mkResult db st "monitoring_config" "FAIL" .CRITICAL
      "No monitoring configuration found" [] []
  | mf :: _ =>
    match mf.content with
    | some text =>
      let missing := missingMonitorElements st text
      if missing.isEmpty then
        mkResult db st "monitoring_config" "PASS" .INFO
          "Monitoring properly configured" [] [mf.path]
      else
        mkResult db st "monitoring_config" "WARNING" .WARNING
          "Monitoring config incomplete" [missingMsg missing] [mf.path]
    | none =>
      mkResult db st "monitoring_config" "WARNING" .WARNING
        "Error reading monitor config" [] []

/-- One iteration of the `validate_all_scenarios` loop: the results the three
check methods append for one database, in order. -/
def validateDatabase (db : String) (st : ScenarioType) (c : Corpus) :
    List ValidationResult :=
  [separationResult db st (scanAppCode db c)]
    ++ infrastructureResults db st c
    ++ [monitoringResult db st c.monitorFiles]

/-- `_validate_documentation` of the earlier validator variant: the
`docs/database-ownership.md` content (or `none` when the file is missing)
is checked for the database name and the owner email. -/
def docResult (db : String) (st : ScenarioType) (owner : String)
    (doc : Option String) : ValidationResult :=
  match doc with
  | some text =>
    if strIn db text && strIn owner text then
      mkResult db st "documentation" "PASS" .INFO "Documentation complete"
        [] ["docs/database-ownership.md"]
    else
      mkResult db st "documentation" "WARNING" .WARNING "Documentation incomplete"
        ["Missing database or owner info"] ["docs/database-ownership.md"]
  | none =>
    mkResult db st "documentation" "FAIL" .CRITICAL "No documentation found" [] []

/-- `critical_failures` of `_generate_report`: results with status FAIL and
severity CRITICAL. -/
def criticalFailures (rs : List ValidationResult) : List ValidationResult :=
  rs.filter (fun r => r.status == "FAIL" && decide (r.violation_type = ViolationType.CRITICAL))

/-- The boolean `_generate_report` returns: `True` iff `critical_failures`
is empty. -/
def generateReportSuccess (rs : List ValidationResult) : Bool :=
  (criticalFailures rs).isEmpty

/-- `exit_code = 0 if success else 1` in `main`. -/
def mainExitCode (rs : List ValidationResult) : Nat :=
  if generateReportSuccess rs then 0 else 1

/-- `scenario_results` of `_generate_validation_report`: the results of one
scenario. -/
def scenarioResults (rs : List ValidationResult) (st : ScenarioType) :
    List ValidationResult :=
  rs.filter (fun r => decide (r.scenario = st))

/-- `passes` of `_generate_validation_report`. -/
def passCount (rs : List ValidationResult) (st : ScenarioType) : Nat :=
  ((scenarioResults rs st).filter (fun r => r.status == "PASS")).length

/-- `total` of `_generate_validation_report`. -/
def totalCount (rs : List ValidationResult) (st : ScenarioType) : Nat :=
  (scenarioResults rs st).length

/-- `compliance_rate = (passes / total * 100) if total > 0 else 0`, with the
Python float arithmetic modelled as exact rationals. -/
def complianceRate (rs : List ValidationResult) (st : ScenarioType) : ℚ :=
  if 0 < totalCount rs st then (passCount rs st : ℚ) / (totalCount rs st) * 100 else 0

/-- Strict lexicographic order on character lists, by character code. -/
def pathLtChars : List Char → List Char → Bool
  | [], [] => false
  | [], _ :: _ => true
  | _ :: _, [] => false
  | a :: as, b :: bs => a < b || (a == b && pathLtChars as bs)

/-- `pathLe a b` : path `a` precedes or equals path `b` lexicographically.
Spec-side notion, used to state the "sorted by path" output guarantee. -/
def pathLe (a b : String) : Bool :=
  pathLtChars a.data b.data || a == b

/-- Spec-side predicate: the list is sorted by path under `pathLe`. -/
def sortedByPath : List String → Bool
  | [] => true
  | [_] => true
  | a :: b :: rest => pathLe a b && sortedByPath (b :: rest)

/-- Files that read successfully. -/
def readableFiles (files : List PyFile) : List PyFile :=
  files.filter (fun f => f.content.isSome)

/-- The corpus with the unreadable files removed from the scanned locations.
The monitoring check reads its file itself and reports read errors, so only
the evidence-scanning inputs are filtered. -/
def readableCorpus (c : Corpus) : Corpus :=
  { c with
    configFiles := readableFiles c.configFiles,
    serviceFiles := readableFiles c.serviceFiles,
    businessFiles := readableFiles c.businessFiles,
    analyticsFiles := readableFiles c.analyticsFiles,
    terraformFiles := readableFiles c.terraformFiles }

/-- The name of the separation check result for each scenario type, read off
the three branches of `_validate_scenario_separation`. -/
def sepCheckName : ScenarioType → String
  | .CONFIG_ONLY => "config_only_purity"
  | .MIXED => "mixed_scenario_rules"
  | .LOGIC_HEAVY => "logic_heavy_complexity"

/-- The status strings a result may carry (`# PASS, FAIL, WARNING` in the
source dataclass). -/
def statusOk (r : ValidationResult) : Bool :=
  r.status == "PASS" || r.status == "FAIL" || r.status == "WARNING"

/-- The files the scanner is configured to check for a category label. -/
def catFiles (c : Corpus) (t : String) : List PyFile :=
  (((appCodeFiles c).find? (fun q => q.1 == t)).map Prod.snd).getD []

/-- Spec-side list of required categories with zero collected evidence. -/
def missingRequiredSpec (db : String) (c : Corpus) : List String :=
  requiredTypesLogicHeavy.filter (fun t => (matchesIn db (catFiles c t)).isEmpty)

/-- A corpus in which no scanned location has any file. -/
def emptyCorpus : Corpus := ⟨[], [], [], [], [], [], []⟩

/-- A corpus with one configuration file that does not reference `pagila`. -/
def claim4Corpus : Corpus :=
  { emptyCorpus with
    configFiles := [⟨"src/config/settings.py", some "unrelated settings"⟩] }

/-- A corpus whose business-logic location enumerates two matching files in
reverse path order. -/
def unsortedCorpus : Corpus :=
  { emptyCorpus with
    businessFiles :=
      [⟨"src/business/b.py", some "uses pagila"⟩,
       ⟨"src/business/a.py", some "uses pagila"⟩] }

/-- A corpus whose only business-logic artifact fails to read. -/
def failCorpus : Corpus :=
  { emptyCorpus with
    businessFiles := [⟨"src/business/broken.py", none⟩] }

/-- A corpus with a business-logic artifact referencing `pagila`. -/
def mixedViolationCorpus : Corpus :=
  { emptyCorpus with
    businessFiles := [⟨"src/business/payroll.py", some "query pagila tables"⟩] }

/-- A corpus with business-logic and analytics artifacts referencing
`employees`. -/
def logicHeavyCorpus : Corpus :=
  { emptyCorpus with
    businessFiles := [⟨"src/business/payroll_calc.py", some "employees payroll"⟩],
    analyticsFiles := [⟨"src/analytics/turnover.py", some "employees analytics"⟩] }

/-! ### Lemmas about the `found_references` association list -/

theorem lookupRefs_nil (k : String) : lookupRefs [] k = [] := rfl

theorem hasKey_nil (k : String) : hasKey [] k = false := rfl

theorem addRef_entry_fst (k p : String) (q : String × List String) :
    (if q.1 == k then (q.1, q.2 ++ [p]) else q).1 = q.1 := by
  by_cases hq : q.1 == k <;> simp [hq]

theorem addRef_comp_fst (k p k' : String) :
    ((fun q : String × List String => q.1 == k') ∘
      (fun q : String × List String => if q.1 == k then (q.1, q.2 ++ [p]) else q))
      = (fun q : String × List String => q.1 == k') := by
  funext q
  simp only [Function.comp_apply]
  rw [addRef_entry_fst]

theorem lookupRefs_addRef_self (refs : List (String × List String)) (k p : String) :
    lookupRefs (addRef refs k p) k = lookupRefs refs k ++ [p] := by
  unfold addRef
  split
  case isTrue h =>
    unfold lookupRefs
    rw [List.find?_map, addRef_comp_fst]
    obtain ⟨q, hmem, hq⟩ := List.any_eq_true.mp h
    cases hfind : refs.find? (fun q => q.1 == k) with
    | none =>
      exact absurd hq (List.find?_eq_none.mp hfind q hmem)
    | some q0 =>
      have hq0 := List.find?_some hfind
      simp only [beq_iff_eq] at hq0
      simp [hq0]
  case isFalse h =>
    have hnone : refs.find? (fun q => q.1 == k) = none := by
      rw [List.find?_eq_none]
      intro x hx hpx
      exact h (List.any_eq_true.mpr ⟨x, hx, hpx⟩)
    unfold lookupRefs
    rw [List.find?_append, hnone]
    simp [List.find?]

theorem lookupRefs_addRef_ne (refs : List (String × List String)) (k p k' : String)
    (hne : k' ≠ k) : lookupRefs (addRef refs k p) k' = lookupRefs refs k' := by
  unfold addRef
  split
  case isTrue h =>
    unfold lookupRefs
    rw [List.find?_map, addRef_comp_fst]
    cases hfind : refs.find? (fun q => q.1 == k') with
    | none => rfl
    | some q0 =>
      have hq0 := List.find?_some hfind
      simp only [beq_iff_eq] at hq0
      simp [hq0, hne]
  case isFalse h =>
    unfold lookupRefs
    rw [List.find?_append]
    have hne' : ¬(k = k') := fun hk => hne hk.symm
    have hlast : (((k, [p]) : String × List String).1 == k') = false := by
      simp [hne']
    simp [List.find?, hlast]

theorem hasKey_addRef_self (refs : List (String × List String)) (k p : String) :
    hasKey (addRef refs k p) k = true := by
  unfold addRef hasKey
  split
  case isTrue h =>
    rw [List.any_map, addRef_comp_fst]
    exact h
  case isFalse h =>
    simp [List.any_append]

theorem hasKey_addRef_ne (refs : List (String × List String)) (k p k' : String)
    (hne : k' ≠ k) : hasKey (addRef refs k p) k' = hasKey refs k' := by
  unfold addRef hasKey
  split
  case isTrue h =>
    rw [List.any_map, addRef_comp_fst]
  case isFalse h =>
    have hne' : ¬(k = k') := fun hk => hne hk.symm
    have hlast : (((k, [p]) : String × List String).1 == k') = false := by
      simp [hne']
    simp [List.any_append, hlast]

/-! ### Lemmas about the scanning loops -/

theorem scanCategory_nil (db ct : String) (refs : List (String × List String)) :
    scanCategory db ct [] refs = refs := rfl

theorem scanCategory_cons (db ct : String) (f : PyFile) (fs : List PyFile)
    (refs : List (String × List String)) :
    scanCategory db ct (f :: fs) refs =
      scanCategory db ct fs
        (match f.content with
         | some text => if strIn db text then addRef refs ct f.path else refs
         | none => refs) := rfl

theorem matchesIn_nil (db : String) : matchesIn db [] = [] := rfl

theorem lookupRefs_scanCategory_self (db ct : String) (fs : List PyFile) :
    ∀ refs, lookupRefs (scanCategory db ct fs refs) ct
      = lookupRefs refs ct ++ matchesIn db fs := by
  induction fs with
  | nil =>
    intro refs
    simp [scanCategory_nil, matchesIn_nil]
  | cons f fs ih =>
    intro refs
    obtain ⟨pth, cnt⟩ := f
    rw [scanCategory_cons]
    cases cnt with
    | none =>
      rw [ih]
      simp [matchesIn, List.filterMap_cons]
    | some text =>
      by_cases hm : strIn db text
      · simp only [hm, if_true]
        rw [ih, lookupRefs_addRef_self]
        simp [matchesIn, List.filterMap_cons, hm]
      · simp only [hm, if_false]
        rw [ih]
        simp [matchesIn, List.filterMap_cons, hm]

theorem lookupRefs_scanCategory_ne (db ct k : String) (fs : List PyFile)
    (hne : k ≠ ct) :
    ∀ refs, lookupRefs (scanCategory db ct fs refs) k = lookupRefs refs k := by
  induction fs with
  | nil =>
    intro refs
    simp [scanCategory_nil]
  | cons f fs ih =>
    intro refs
    obtain ⟨pth, cnt⟩ := f
    rw [scanCategory_cons]
    cases cnt with
    | none => exact ih refs
    | some text =>
      by_cases hm : strIn db text
      · simp only [hm, if_true]
        rw [ih, lookupRefs_addRef_ne _ _ _ _ hne]
      · simp only [hm, if_false]
        exact ih refs

theorem hasKey_scanCategory_self (db ct : String) (fs : List PyFile) :
    ∀ refs, hasKey (scanCategory db ct fs refs) ct
      = (hasKey refs ct || !(matchesIn db fs).isEmpty) := by
  induction fs with
  | nil =>
    intro refs
    simp [scanCategory_nil, matchesIn_nil]
  | cons f fs ih =>
    intro refs
    obtain ⟨pth, cnt⟩ := f
    rw [scanCategory_cons]
    cases cnt with
    | none =>
      rw [ih]
      simp [matchesIn, List.filterMap_cons]
    | some text =>
      by_cases hm : strIn db text
      · simp only [hm, if_true]
        rw [ih]
        simp [hasKey_addRef_self, matchesIn, List.filterMap_cons, hm]
      · simp only [hm, if_false]
        rw [ih]
        simp [matchesIn, List.filterMap_cons, hm]

theorem hasKey_scanCategory_ne (db ct k : String) (fs : List PyFile)
    (hne : k ≠ ct) :
    ∀ refs, hasKey (scanCategory db ct fs refs) k = hasKey refs k := by
  induction fs with
  | nil =>
    intro refs
    simp [scanCategory_nil]
  | cons f fs ih =>
    intro refs
    obtain ⟨pth, cnt⟩ := f
    rw [scanCategory_cons]
    cases cnt with
    | none => exact ih refs
    | some text =>
      by_cases hm : strIn db text
      · simp only [hm, if_true]
        rw [ih, hasKey_addRef_ne _ _ _ _ hne]
      · simp only [hm, if_false]
        exact ih refs

theorem scanAppCode_eq (db : String) (c : Corpus) :
    scanAppCode db c =
      scanCategory db "analytics" c.analyticsFiles
        (scanCategory db "business_logic" c.businessFiles
          (scanCategory db "service_layer" c.serviceFiles
            (scanCategory db "configuration" c.configFiles []))) := rfl

theorem lookupRefs_scanAppCode_config (db : String) (c : Corpus) :
    lookupRefs (scanAppCode db c) "configuration" = matchesIn db c.configFiles := by
  rw [scanAppCode_eq]
  rw [lookupRefs_scanCategory_ne db _ _ _ (by decide),
    lookupRefs_scanCategory_ne db _ _ _ (by decide),
    lookupRefs_scanCategory_ne db _ _ _ (by decide),
    lookupRefs_scanCategory_self]
  simp [lookupRefs_nil]

theorem lookupRefs_scanAppCode_service (db : String) (c : Corpus) :
    lookupRefs (scanAppCode db c) "service_layer" = matchesIn db c.serviceFiles := by
  rw [scanAppCode_eq]
  rw [lookupRefs_scanCategory_ne db _ _ _ (by decide),
    lookupRefs_scanCategory_ne db _ _ _ (by decide),
    lookupRefs_scanCategory_self,
    lookupRefs_scanCategory_ne db _ _ _ (by decide)]
  simp [lookupRefs_nil]

theorem lookupRefs_scanAppCode_business (db : String) (c : Corpus) :
    lookupRefs (scanAppCode db c) "business_logic" = matchesIn db c.businessFiles := by
  rw [scanAppCode_eq]
  rw [lookupRefs_scanCategory_ne db _ _ _ (by decide),
    lookupRefs_scanCategory_self,
    lookupRefs_scanCategory_ne db _ _ _ (by decide),
    lookupRefs_scanCategory_ne db _ _ _ (by decide)]
  simp [lookupRefs_nil]

theorem lookupRefs_scanAppCode_analytics (db : String) (c : Corpus) :
    lookupRefs (scanAppCode db c) "analytics" = matchesIn db c.analyticsFiles := by
  rw [scanAppCode_eq]
  rw [lookupRefs_scanCategory_self,
    lookupRefs_scanCategory_ne db _ _ _ (by decide),
    lookupRefs_scanCategory_ne db _ _ _ (by decide),
    lookupRefs_scanCategory_ne db _ _ _ (by decide)]
  simp [lookupRefs_nil]

theorem hasKey_scanAppCode_config (db : String) (c : Corpus) :
    hasKey (scanAppCode db c) "configuration" = !(matchesIn db c.configFiles).isEmpty := by
  rw [scanAppCode_eq]
  rw [hasKey_scanCategory_ne db _ _ _ (by decide),
    hasKey_scanCategory_ne db _ _ _ (by decide),
    hasKey_scanCategory_ne db _ _ _ (by decide),
    hasKey_scanCategory_self]
  simp [hasKey_nil]

theorem hasKey_scanAppCode_service (db : String) (c : Corpus) :
    hasKey (scanAppCode db c) "service_layer" = !(matchesIn db c.serviceFiles).isEmpty := by
  rw [scanAppCode_eq]
  rw [hasKey_scanCategory_ne db _ _ _ (by decide),
    hasKey_scanCategory_ne db _ _ _ (by decide),
    hasKey_scanCategory_self,
    hasKey_scanCategory_ne db _ _ _ (by decide)]
  simp [hasKey_nil]

theorem hasKey_scanAppCode_business (db : String) (c : Corpus) :
    hasKey (scanAppCode db c) "business_logic" = !(matchesIn db c.businessFiles).isEmpty := by
  rw [scanAppCode_eq]
  rw [hasKey_scanCategory_ne db _ _ _ (by decide),
    hasKey_scanCategory_self,
    hasKey_scanCategory_ne db _ _ _ (by decide),
    hasKey_scanCategory_ne db _ _ _ (by decide)]
  simp [hasKey_nil]

theorem hasKey_scanAppCode_analytics (db : String) (c : Corpus) :
    hasKey (scanAppCode db c) "analytics" = !(matchesIn db c.analyticsFiles).isEmpty := by
  rw [scanAppCode_eq]
  rw [hasKey_scanCategory_self,
    hasKey_scanCategory_ne db _ _ _ (by decide),
    hasKey_scanCategory_ne db _ _ _ (by decide),
    hasKey_scanCategory_ne db _ _ _ (by decide)]
  simp [hasKey_nil]

theorem catFiles_business (c : Corpus) : catFiles c "business_logic" = c.businessFiles := rfl

theorem catFiles_analytics (c : Corpus) : catFiles c "analytics" = c.analyticsFiles := rfl

theorem missingRequired_eq_spec (db : String) (c : Corpus) :
    requiredTypesLogicHeavy.filter (fun t => !hasKey (scanAppCode db c) t)
      = missingRequiredSpec db c := by
  by_cases hb : (matchesIn db c.businessFiles).isEmpty <;>
    by_cases ha : (matchesIn db c.analyticsFiles).isEmpty <;>
      simp [requiredTypesLogicHeavy, missingRequiredSpec, List.filter_cons,
        hasKey_scanAppCode_business, hasKey_scanAppCode_analytics,
        catFiles_business, catFiles_analytics, hb, ha]

theorem terraformFound_eq_matches (db : String) (fs : List PyFile) :
    terraformFound db fs = !(matchesIn db fs).isEmpty := by
  induction fs with
  | nil => rfl
  | cons f fs ih =>
    obtain ⟨pth, cnt⟩ := f
    cases cnt with
    | none =>
      simp only [terraformFound, List.any_cons] at *
      simp [matchesIn, List.filterMap_cons, ih]
    | some text =>
      by_cases hm : strIn db text <;>
        · simp only [terraformFound, List.any_cons] at *
          simp [matchesIn, List.filterMap_cons, hm, ih]

theorem readableFiles_cons_none (pth : String) (fs : List PyFile) :
    readableFiles (⟨pth, none⟩ :: fs) = readableFiles fs := by
  simp [readableFiles, List.filter_cons]

theorem readableFiles_cons_some (pth text : String) (fs : List PyFile) :
    readableFiles (⟨pth, some text⟩ :: fs) = ⟨pth, some text⟩ :: readableFiles fs := by
  simp [readableFiles, List.filter_cons]

theorem scanCategory_readable (db ct : String) (fs : List PyFile) :
    ∀ refs, scanCategory db ct (readableFiles fs) refs = scanCategory db ct fs refs := by
  induction fs with
  | nil => intro refs; rfl
  | cons f fs ih =>
    intro refs
    obtain ⟨pth, cnt⟩ := f
    cases cnt with
    | none =>
      rw [readableFiles_cons_none, scanCategory_cons]
      exact ih refs
    | some text =>
      rw [readableFiles_cons_some, scanCategory_cons, scanCategory_cons]
      exact ih _

theorem terraformFound_readable (db : String) (fs : List PyFile) :
    terraformFound db (readableFiles fs) = terraformFound db fs := by
  induction fs with
  | nil => rfl
  | cons f fs ih =>
    obtain ⟨pth, cnt⟩ := f
    cases cnt with
    | none =>
      rw [readableFiles_cons_none, ih]
      simp [terraformFound, List.any_cons]
    | some text =>
      rw [readableFiles_cons_some]
      simp only [terraformFound, List.any_cons] at *
      rw [ih]

theorem generateReportSuccess_eq_all (rs : List ValidationResult) :
    generateReportSuccess rs
      = rs.all (fun r => !(r.status == "FAIL"
          && decide (r.violation_type = ViolationType.CRITICAL))) := by
  induction rs with
  | nil => rfl
  | cons r rs ih =>
    unfold generateReportSuccess criticalFailures at ih ⊢
    rw [List.filter_cons, List.all_cons]
    cases hp : (r.status == "FAIL" && decide (r.violation_type = ViolationType.CRITICAL)) with
    | false =>
      rw [if_neg (by simp [hp]), ih]
      simp
    | true =>
      rw [if_pos (by simp [hp])]
      simp

theorem separationResult_check_name (db : String) (st : ScenarioType)
    (refs : List (String × List String)) :
    (separationResult db st refs).check_name = sepCheckName st := by
  cases st <;> simp only [separationResult, sepCheckName] <;>
    (repeat' split) <;> rfl

theorem statusOk_separationResult (db : String) (st : ScenarioType)
    (refs : List (String × List String)) :
    statusOk (separationResult db st refs) = true := by
  cases st <;> simp only [separationResult] <;>
    (repeat' split) <;> rfl

theorem statusOk_terraformResult (db : String) (st : ScenarioType) (fs : List PyFile) :
    statusOk (terraformResult db st fs) = true := by
  unfold terraformResult
  split <;> rfl

theorem statusOk_helmResult (db : String) (st : ScenarioType) (hs : List String) :
    statusOk (helmResult db st hs) = true := by
  unfold helmResult
  split <;> rfl

theorem statusOk_monitoringResult (db : String) (st : ScenarioType) (fs : List PyFile) :
    statusOk (monitoringResult db st fs) = true := by
  cases fs with
  | nil => rfl
  | cons mf rest =>
    obtain ⟨pth, cnt⟩ := mf
    cases cnt with
    | none => rfl
    | some text =>
      unfold monitoringResult
      dsimp only
      split <;> rfl

theorem terraformResult_check_name (db : String) (st : ScenarioType) (fs : List PyFile) :
    (terraformResult db st fs).check_name = "terraform_config" := by
  unfold terraformResult
  split <;> rfl

theorem helmResult_check_name (db : String) (st : ScenarioType) (hs : List String) :
    (helmResult db st hs).check_name = "helm_config" := by
  unfold helmResult
  split <;> rfl

theorem monitoringResult_check_name (db : String) (st : ScenarioType) (fs : List PyFile) :
    (monitoringResult db st fs).check_name = "monitoring_config" := by
  cases fs with
  | nil => rfl
  | cons mf rest =>
    obtain ⟨pth, cnt⟩ := mf
    cases cnt with
    | none => rfl
    | some text =>
      unfold monitoringResult
      dsimp only
      split <;> rfl

theorem separationResult_config_only_fail (db : String)
    (refs : List (String × List String)) (h : refs ≠ []) :
    (separationResult db ScenarioType.CONFIG_ONLY refs).status = "FAIL"
    ∧ (separationResult db ScenarioType.CONFIG_ONLY refs).violation_type
        = ViolationType.CRITICAL := by
  unfold separationResult
  rw [if_neg (by simp [List.isEmpty_iff, h])]
  exact ⟨rfl, rfl⟩

theorem separationResult_mixed_fail (db cat : String)
    (refs : List (String × List String))
    (hcat : cat ∈ forbiddenTypesMixed) (h : lookupRefs refs cat ≠ []) :
    (separationResult db ScenarioType.MIXED refs).status = "FAIL"
    ∧ (separationResult db ScenarioType.MIXED refs).violation_type
        = ViolationType.CRITICAL := by
  have hk : hasKey refs cat = true := by
    unfold lookupRefs at h
    cases hfind : refs.find? (fun q => q.1 == cat) with
    | none => rw [hfind] at h; simp at h
    | some q0 =>
      have hq := List.find?_some hfind
      exact List.any_eq_true.mpr ⟨q0, List.mem_of_find?_eq_some hfind, hq⟩
  have hviol : cat ∈ (refKeys refs).filter (fun t => forbiddenTypesMixed.contains t) := by
    obtain ⟨q, hqmem, hq⟩ := List.any_eq_true.mp hk
    have hq1 : q.1 = cat := by simpa using hq
    refine List.mem_filter.mpr ⟨hq1 ▸ List.mem_map_of_mem Prod.fst hqmem, ?_⟩
    simpa using hcat
  unfold separationResult
  simp only
  rw [if_neg (by simp only [List.isEmpty_iff]; exact List.ne_nil_of_mem hviol)]
  exact ⟨rfl, rfl⟩

/-- C1: for every result sequence, including the empty one, the overall
success returned by `_generate_report` is true exactly when no result has
status FAIL together with severity CRITICAL, and the exit code computed by
`main` is 0 exactly when that success is true (1 otherwise). -/
theorem claim1_aggregation (rs : List ValidationResult) :
    generateReportSuccess rs
      = rs.all (fun r => !(r.status == "FAIL"
          && decide (r.violation_type = ViolationType.CRITICAL)))
    ∧ (mainExitCode rs == 0) = generateReportSuccess rs := by
  refine ⟨generateReportSuccess_eq_all rs, ?_⟩
  cases h : generateReportSuccess rs <;> simp [mainExitCode, h]

/-- C2: if the collected evidence has at least one artifact in a category the
scenario forbids (CONFIG_ONLY forbids every app-code category; MIXED forbids
business_logic and analytics), the separation check is FAIL with severity
CRITICAL. -/
theorem claim2_forbidden_category (db : String) (c : Corpus) (cat : String) :
    (lookupRefs (scanAppCode db c) cat ≠ [] →
      (separationResult db ScenarioType.CONFIG_ONLY (scanAppCode db c)).status = "FAIL"
      ∧ (separationResult db ScenarioType.CONFIG_ONLY (scanAppCode db c)).violation_type
          = ViolationType.CRITICAL)
    ∧ (cat ∈ forbiddenTypesMixed →
      lookupRefs (scanAppCode db c) cat ≠ [] →
      (separationResult db ScenarioType.MIXED (scanAppCode db c)).status = "FAIL"
      ∧ (separationResult db ScenarioType.MIXED (scanAppCode db c)).violation_type
          = ViolationType.CRITICAL) := by
  constructor
  · intro h
    have hne : scanAppCode db c ≠ [] := by
      intro hnil
      rw [hnil] at h
      exact h rfl
    exact separationResult_config_only_fail db _ hne
  · intro hcat h
    exact separationResult_mixed_fail db cat _ hcat h

/-- Witness for C2: a corpus with one business-logic artifact referencing
`pagila` triggers FAIL/CRITICAL under both forbidding scenarios. -/
theorem claim2_witness :
    lookupRefs (scanAppCode "pagila" mixedViolationCorpus) "business_logic" ≠ []
    ∧ "business_logic" ∈ forbiddenTypesMixed
    ∧ (separationResult "pagila" ScenarioType.CONFIG_ONLY
        (scanAppCode "pagila" mixedViolationCorpus)).status = "FAIL"
    ∧ (separationResult "pagila" ScenarioType.MIXED
        (scanAppCode "pagila" mixedViolationCorpus)).status = "FAIL"
    ∧ (separationResult "pagila" ScenarioType.MIXED
        (scanAppCode "pagila" mixedViolationCorpus)).violation_type
        = ViolationType.CRITICAL := by
  have h := claim2_forbidden_category "pagila" mixedViolationCorpus "business_logic"
  exact ⟨by decide, by decide, (h.1 (by decide)).1,
    (h.2 (by decide) (by decide)).1, (h.2 (by decide) (by decide)).2⟩

/-- C3 counterexample: when monitoring evidence is absent the monitoring
check of the source yields FAIL with severity CRITICAL — not the
WARNING-severity result the claim requires. -/
theorem claim3_counterexample :
    (monitoringResult "pagila" ScenarioType.MIXED []).status = "FAIL"
    ∧ (monitoringResult "pagila" ScenarioType.MIXED []).violation_type
        = ViolationType.CRITICAL
    ∧ ViolationType.CRITICAL ≠ ViolationType.WARNING :=
  ⟨rfl, rfl, by decide⟩

/-- C3 amended: absent monitoring or documentation evidence yields FAIL with
severity CRITICAL; when evidence is present, the monitoring check is PASS if
the content has all required elements and WARNING (severity WARNING) if the
content is incomplete or unreadable, and the documentation check is PASS if
the document mentions the database and its owner and WARNING (severity
WARNING) otherwise. -/
theorem claim3_amended (db owner : String) (st : ScenarioType) :
    ((monitoringResult db st []).status = "FAIL"
      ∧ (monitoringResult db st []).violation_type = ViolationType.CRITICAL)
    ∧ ((docResult db st owner none).status = "FAIL"
      ∧ (docResult db st owner none).violation_type = ViolationType.CRITICAL)
    ∧ (∀ f : PyFile, ∀ rest : List PyFile, ∀ text : String,
        f.content = some text → missingMonitorElements st text = [] →
        (monitoringResult db st (f :: rest)).status = "PASS")
    ∧ (∀ f : PyFile, ∀ rest : List PyFile, ∀ text : String,
        f.content = some text → missingMonitorElements st text ≠ [] →
        (monitoringResult db st (f :: rest)).status = "WARNING"
        ∧ (monitoringResult db st (f :: rest)).violation_type = ViolationType.WARNING)
    ∧ (∀ f : PyFile, ∀ rest : List PyFile, f.content = none →
        (monitoringResult db st (f :: rest)).status = "WARNING"
        ∧ (monitoringResult db st (f :: rest)).violation_type = ViolationType.WARNING)
    ∧ (∀ text : String, strIn db text = true → strIn owner text = true →
        (docResult db st owner (some text)).status = "PASS")
    ∧ (∀ text : String, (strIn db text && strIn owner text) = false →
        (docResult db st owner (some text)).status = "WARNING"
        ∧ (docResult db st owner (some text)).violation_type = ViolationType.WARNING) := by
  refine ⟨⟨rfl, rfl⟩, ⟨rfl, rfl⟩, ?_, ?_, ?_, ?_, ?_⟩
  · intro f rest text hc hmiss
    obtain ⟨pth, cnt⟩ := f
    simp only at hc
    subst hc
    simp [monitoringResult, hmiss, mkResult]
  · intro f rest text hc hmiss
    obtain ⟨pth, cnt⟩ := f
    simp only at hc
    subst hc
    have hne : (missingMonitorElements st text).isEmpty = false := by
      simp [List.isEmpty_iff, hmiss]
    simp [monitoringResult, hne, mkResult]
  · intro f rest hc
    obtain ⟨pth, cnt⟩ := f
    simp only at hc
    subst hc
    exact ⟨rfl, rfl⟩
  · intro text hdb howner
    simp [docResult, hdb, howner, mkResult]
  · intro text hfalse
    simp [docResult, hfalse, mkResult]

/-- Witness for C3 (amended): complete monitor content passes, incomplete or
unreadable monitor content warns, a matching ownership document passes, a
document missing the owner warns, and the empty monitor list fails. -/
theorem claim3_witness :
    (monitoringResult "pagila" ScenarioType.CONFIG_ONLY
        [⟨"datadog_monitor_pagila.yaml",
          some "config_only threshold alert database_name"⟩]).status = "PASS"
    ∧ (monitoringResult "pagila" ScenarioType.CONFIG_ONLY
        [⟨"datadog_monitor_pagila.yaml", some "threshold only"⟩]).status = "WARNING"
    ∧ (monitoringResult "pagila" ScenarioType.CONFIG_ONLY
        [⟨"datadog_monitor_pagila.yaml", some "threshold only"⟩]).violation_type
        = ViolationType.WARNING
    ∧ (monitoringResult "pagila" ScenarioType.CONFIG_ONLY
        [⟨"datadog_monitor_pagila.yaml", none⟩]).status = "WARNING"
    ∧ (docResult "pagila" ScenarioType.CONFIG_ONLY "development-team@company.com"
        (some "pagila owned by development-team@company.com")).status = "PASS"
    ∧ (docResult "pagila" ScenarioType.CONFIG_ONLY "development-team@company.com"
        (some "pagila only")).status = "WARNING"
    ∧ (docResult "pagila" ScenarioType.CONFIG_ONLY "development-team@company.com"
        (some "pagila only")).violation_type = ViolationType.WARNING
    ∧ (monitoringResult "pagila" ScenarioType.CONFIG_ONLY []).status = "FAIL" := by
  have h := claim3_amended "pagila" "development-team@company.com" ScenarioType.CONFIG_ONLY
  exact ⟨h.2.2.1 _ [] _ rfl (by decide),
    (h.2.2.2.1 _ [] _ rfl (by decide)).1,
    (h.2.2.2.1 _ [] _ rfl (by decide)).2,
    (h.2.2.2.2.1 _ [] rfl).1,
    h.2.2.2.2.2.1 _ (by decide) (by decide),
    (h.2.2.2.2.2.2 _ (by decide)).1,
    (h.2.2.2.2.2.2 _ (by decide)).2,
    h.1.1⟩

/-- C4 counterexample: scanning `pagila` against a corpus whose configuration
location holds one non-matching file yields a `found_references` mapping with
no entry at all — the checked category "configuration" is absent rather than
mapped to an empty sequence. -/
theorem claim4_counterexample :
    scanAppCode "pagila" claim4Corpus = []
    ∧ hasKey (scanAppCode "pagila" claim4Corpus) "configuration" = false :=
  ⟨by decide, by decide⟩

/-- C4 amended: a checked category appears in the evidence mapping exactly
when it has at least one matching artifact; zero-match categories are
omitted from the mapping. -/
theorem claim4_amended (db : String) (c : Corpus) :
    hasKey (scanAppCode db c) "configuration" = !(matchesIn db c.configFiles).isEmpty
    ∧ hasKey (scanAppCode db c) "service_layer" = !(matchesIn db c.serviceFiles).isEmpty
    ∧ hasKey (scanAppCode db c) "business_logic" = !(matchesIn db c.businessFiles).isEmpty
    ∧ hasKey (scanAppCode db c) "analytics" = !(matchesIn db c.analyticsFiles).isEmpty :=
  ⟨hasKey_scanAppCode_config db c, hasKey_scanAppCode_service db c,
   hasKey_scanAppCode_business db c, hasKey_scanAppCode_analytics db c⟩

/-- C5: the infrastructure-presence (terraform) check is FAIL with severity
CRITICAL when no terraform artifact references the resource, for every
scenario, and PASS when at least one does. -/
theorem claim5_infrastructure_presence (db : String) (st : ScenarioType)
    (fs : List PyFile) :
    (matchesIn db fs = [] →
      (terraformResult db st fs).status = "FAIL"
      ∧ (terraformResult db st fs).violation_type = ViolationType.CRITICAL)
    ∧ (matchesIn db fs ≠ [] → (terraformResult db st fs).status = "PASS") := by
  constructor
  · intro h
    unfold terraformResult
    rw [if_neg (by rw [terraformFound_eq_matches, h]; simp)]
    exact ⟨rfl, rfl⟩
  · intro h
    unfold terraformResult
    rw [if_pos (by rw [terraformFound_eq_matches]; simp [List.isEmpty_iff, h])]
    rfl

/-- Witness for C5: no terraform evidence fails critically; a matching
terraform file passes, at any scenario. -/
theorem claim5_witness :
    matchesIn "pagila" ([] : List PyFile) = []
    ∧ (terraformResult "pagila" ScenarioType.MIXED []).status = "FAIL"
    ∧ (terraformResult "pagila" ScenarioType.MIXED []).violation_type
        = ViolationType.CRITICAL
    ∧ matchesIn "pagila" [⟨"terraform_dev_databases.tf", some "module pagila"⟩] ≠ []
    ∧ (terraformResult "pagila" ScenarioType.MIXED
        [⟨"terraform_dev_databases.tf", some "module pagila"⟩]).status = "PASS" := by
  have h1 := claim5_infrastructure_presence "pagila" ScenarioType.MIXED []
  have h2 := claim5_infrastructure_presence "pagila" ScenarioType.MIXED
    [⟨"terraform_dev_databases.tf", some "module pagila"⟩]
  exact ⟨rfl, (h1.1 rfl).1, (h1.1 rfl).2, by decide, h2.2 (by decide)⟩

/-- C6: for the LOGIC_HEAVY scenario (the one with a non-empty required set)
the completeness check is a WARNING-severity WARNING result whose details
list exactly the required categories with zero evidence, and PASS when every
required category has evidence. -/
theorem claim6_completeness (db : String) (c : Corpus) :
    (missingRequiredSpec db c ≠ [] →
      (separationResult db ScenarioType.LOGIC_HEAVY (scanAppCode db c)).status = "WARNING"
      ∧ (separationResult db ScenarioType.LOGIC_HEAVY (scanAppCode db c)).violation_type
          = ViolationType.WARNING
      ∧ (separationResult db ScenarioType.LOGIC_HEAVY (scanAppCode db c)).details
          = [missingMsg (missingRequiredSpec db c)])
    ∧ (missingRequiredSpec db c = [] →
      (separationResult db ScenarioType.LOGIC_HEAVY (scanAppCode db c)).status = "PASS") := by
  have hmiss := missingRequired_eq_spec db c
  constructor
  · intro h
    unfold separationResult
    simp only
    rw [hmiss, if_neg (by simp [List.isEmpty_iff, h])]
    exact ⟨rfl, rfl, rfl⟩
  · intro h
    unfold separationResult
    simp only
    rw [hmiss, if_pos (by simp [List.isEmpty_iff, h])]
    rfl

/-- Witness for C6: with only business-logic evidence the check warns and
lists the missing category; with both required categories present it
passes. -/
theorem claim6_witness :
    missingRequiredSpec "pagila" mixedViolationCorpus ≠ []
    ∧ (separationResult "pagila" ScenarioType.LOGIC_HEAVY
        (scanAppCode "pagila" mixedViolationCorpus)).status = "WARNING"
    ∧ (separationResult "pagila" ScenarioType.LOGIC_HEAVY
        (scanAppCode "pagila" mixedViolationCorpus)).details
        = [missingMsg (missingRequiredSpec "pagila" mixedViolationCorpus)]
    ∧ missingRequiredSpec "employees" logicHeavyCorpus = []
    ∧ (separationResult "employees" ScenarioType.LOGIC_HEAVY
        (scanAppCode "employees" logicHeavyCorpus)).status = "PASS" := by
  have h1 := claim6_completeness "pagila" mixedViolationCorpus
  have h2 := claim6_completeness "employees" logicHeavyCorpus
  exact ⟨by decide, (h1.1 (by decide)).1, (h1.1 (by decide)).2.2,
    by decide, h2.2 (by decide)⟩

/-- C7 counterexample: a corpus whose business-logic location enumerates
matching files in the order `b.py`, `a.py` yields that exact order — the
recorded sequence is not sorted by path. -/
theorem claim7_counterexample :
    lookupRefs (scanAppCode "pagila" unsortedCorpus) "business_logic"
      = ["src/business/b.py", "src/business/a.py"]
    ∧ sortedByPath (lookupRefs (scanAppCode "pagila" unsortedCorpus) "business_logic")
        = false :=
  ⟨by decide, by decide⟩

/-- C7 amended: within each category the recorded artifact locations follow
the artifact enumeration order (the matching files in scan order); no sort is
applied, so the ordering depends on how the corpus is enumerated. -/
theorem claim7_amended (db : String) (c : Corpus) :
    lookupRefs (scanAppCode db c) "configuration" = matchesIn db c.configFiles
    ∧ lookupRefs (scanAppCode db c) "service_layer" = matchesIn db c.serviceFiles
    ∧ lookupRefs (scanAppCode db c) "business_logic" = matchesIn db c.businessFiles
    ∧ lookupRefs (scanAppCode db c) "analytics" = matchesIn db c.analyticsFiles :=
  ⟨lookupRefs_scanAppCode_config db c, lookupRefs_scanAppCode_service db c,
   lookupRefs_scanAppCode_business db c, lookupRefs_scanAppCode_analytics db c⟩

/-- C8 counterexample: a run whose only business-logic artifact fails to read
produces exactly the same result list as a run on a corpus with no artifacts
at all — no WARNING-level note records the read failure, and the outcome is
indistinguishable from "zero evidence found". -/
theorem claim8_counterexample :
    validateDatabase "employees" ScenarioType.LOGIC_HEAVY failCorpus
      = validateDatabase "employees" ScenarioType.LOGIC_HEAVY emptyCorpus := by
  decide

/-- C8 amended: artifacts that fail to read are skipped silently by the
evidence scanner: removing them from the scanned locations changes neither
the collected references nor the terraform search outcome. -/
theorem claim8_amended (db : String) (c : Corpus) :
    scanAppCode db (readableCorpus c) = scanAppCode db c
    ∧ terraformFound db (readableFiles c.terraformFiles)
        = terraformFound db c.terraformFiles := by
  constructor
  · rw [scanAppCode_eq, scanAppCode_eq]
    simp only [readableCorpus]
    rw [scanCategory_readable, scanCategory_readable, scanCategory_readable,
      scanCategory_readable]
  · exact terraformFound_readable db c.terraformFiles

/-- C9: the per-scenario compliance rate of `_generate_validation_report`,
expressed as a fraction (the stored value is the same ratio in percent),
equals the number of PASS results of that scenario divided by the total
number of that scenario's results, and the rate is 0 when the scenario has
no results. -/
theorem claim9_pass_rate (rs : List ValidationResult) (st : ScenarioType) :
    complianceRate rs st / 100 = (passCount rs st : ℚ) / (totalCount rs st)
    ∧ (scenarioResults rs st = [] → complianceRate rs st = 0) := by
  constructor
  · unfold complianceRate
    by_cases h : 0 < totalCount rs st
    · rw [if_pos h, mul_comm]
      exact mul_div_cancel_left₀ _ (by norm_num)
    · rw [if_neg h]
      have h0 : totalCount rs st = 0 := Nat.eq_zero_of_not_pos h
      rw [h0]
      simp
  · intro h
    unfold complianceRate
    have h0 : totalCount rs st = 0 := by unfold totalCount; rw [h]; rfl
    rw [if_neg (by simp [h0])]

/-- Witness for C9: the empty result list has no results for any scenario and
rate 0. -/
theorem claim9_witness :
    scenarioResults [] ScenarioType.CONFIG_ONLY = []
    ∧ complianceRate [] ScenarioType.CONFIG_ONLY = 0
    ∧ complianceRate [] ScenarioType.CONFIG_ONLY / 100
        = (passCount [] ScenarioType.CONFIG_ONLY : ℚ)
            / (totalCount [] ScenarioType.CONFIG_ONLY) := by
  have h := claim9_pass_rate [] ScenarioType.CONFIG_ONLY
  exact ⟨rfl, h.2 rfl, h.1⟩

/-- C10: one loop iteration of `validate_all_scenarios` appends exactly four
results, in the fixed order separation check (whose name depends on the
scenario), `terraform_config`, `helm_config`, `monitoring_config`, one result
per check name, and every status is one of PASS, FAIL, WARNING. -/
theorem claim10_four_results (db : String) (st : ScenarioType) (c : Corpus) :
    (validateDatabase db st c).length = 4
    ∧ (validateDatabase db st c).map ValidationResult.check_name
        = [sepCheckName st, "terraform_config", "helm_config", "monitoring_config"]
    ∧ (validateDatabase db st c).all statusOk = true := by
  unfold validateDatabase infrastructureResults
  refine ⟨rfl, ?_, ?_⟩
  · simp [separationResult_check_name, terraformResult_check_name,
      helmResult_check_name, monitoringResult_check_name]
  · simp [statusOk_separationResult, statusOk_terraformResult,
      statusOk_helmResult, statusOk_monitoringResult]

end ScenarioValidation
